import Mathlib

/-!
Verification of the AIService core of the ai-health-coach backend
(utils/aiService.js): the nutrition-needs calculator, the rule-based
recommendation generators, and the meal-plan filter.

Numbers are modelled as exact rationals; JavaScript `Math.round` is
`jsRound q = ⌊q + 1/2⌋` (round half toward positive infinity).  A field
that may be absent from the input object is an `Option`; a JavaScript
`TypeError` raised by a member access on `undefined` is an `Except.error`.
-/

namespace AIHealthCoach

/-- One day's logged progress entry: `workoutCompleted` may be absent
(the source tests `=== false`, so absence is distinct from `false`). -/
structure ProgressEntry where
  workoutCompleted : Option Bool
  caloriesConsumed : ℚ
  targetCalories : ℚ
deriving Repr, DecidableEq

/-- The slice of `profile.preferences` the recommendation code reads;
`dietaryRestrictions` may be absent (the source guards it with `&&`). -/
structure Preferences where
  dietaryRestrictions : Option (List String)
deriving Repr, DecidableEq

/-- A user profile as consumed by AIService.  `fitnessGoals` and
`preferences` may be absent, which the source does not guard against. -/
structure Profile where
  age : ℚ
  weight : ℚ
  height : ℚ
  gender : String
  activityLevel : Option String
  fitnessGoals : Option (List String)
  preferences : Option Preferences
deriving Repr, DecidableEq

/-- A recommendation item pushed by the generators. -/
structure Recommendation where
  type : String
  message : String
  action : String
deriving Repr, DecidableEq

/-- JavaScript `Math.round`: floor of x + 1/2 (half rounds up). -/
def jsRound (q : ℚ) : ℤ := ⌊q + 1 / 2⌋

/-- Macro gram targets (script.js lines 295-299). -/
structure Macros where
  protein : ℤ
  carbs : ℤ
  fats : ℤ
deriving Repr, DecidableEq

/-- Result of `calculateNutritionNeeds` (script.js lines 293-300). -/
structure NutritionNeeds where
  dailyCalories : ℤ
  macros : Macros
deriving Repr, DecidableEq

/-- The `TypeError` raised when `fitnessGoals.includes` is evaluated on an
absent `fitnessGoals` (script.js line 287). -/
def fitnessGoalsTypeError : String :=
  "TypeError: cannot read includes of undefined fitnessGoals"

/-- The `TypeError` raised when `preferences.dietaryRestrictions` is read
from an absent `preferences` object (script.js line 154). -/
def preferencesTypeError : String :=
  "TypeError: cannot read dietaryRestrictions of undefined preferences"

/-- BMR, script.js lines 270-275: Harris-Benedict, male formula when
`gender === male`, the other formula for every other gender value. -/
def bmrOf (p : Profile) : ℚ :=
  if p.gender = "male" then
    88.362 + 13.397 * p.weight + 4.799 * p.height - 5.677 * p.age
  else
    447.593 + 9.247 * p.weight + 3.098 * p.height - 4.330 * p.age

/-- `activityFactors[activityLevel] || 1.2`, script.js lines 277-284:
object lookup with fallback 1.2 for a missing or unknown key. -/
def activityFactor : Option String → ℚ
  | some al =>
      if al = "sedentary" then 1.2
      else if al = "lightly_active" then 1.375
      else if al = "moderately_active" then 1.55
      else if al = "very_active" then 1.725
      else 1.2
  | none => 1.2

/-- TDEE, script.js line 284. -/
def tdeeOf (p : Profile) : ℚ :=
  bmrOf p * activityFactor p.activityLevel

/-- Goal adjustment, script.js lines 286-291: first matching branch wins. -/
def targetCaloriesOf (p : Profile) (goals : List String) : ℚ :=
  if goals.contains "weight_loss" then tdeeOf p - 500
  else if goals.contains "muscle_gain" then tdeeOf p + 300
  else tdeeOf p

/-- `AIService.calculateNutritionNeeds`, script.js lines 266-301.  The
`includes` calls on line 287/289 throw when `fitnessGoals` is absent. -/
def calculateNutritionNeeds (p : Profile) : Except String NutritionNeeds :=
  match p.fitnessGoals with
  | none => .error fitnessGoalsTypeError
  | some goals =>
      let targetCalories := targetCaloriesOf p goals
      .ok ⟨jsRound targetCalories,
           ⟨jsRound (targetCalories * 0.25 / 4),
            jsRound (targetCalories * 0.45 / 4),
            jsRound (targetCalories * 0.30 / 9)⟩⟩

/-- Motivation recommendation, script.js lines 109-113. -/
def motivationRec : Recommendation :=
  ⟨"motivation",
   "You missed yesterdays workout. Lets get back on track with a lighter session today!",
   "Start with a 20-minute beginner workout"⟩

/-- Cardio recommendation, script.js lines 119-123. -/
def cardioRec : Recommendation :=
  ⟨"cardio",
   "Add 15 minutes of HIIT training to boost fat burning",
   "Try interval running or cycling"⟩

/-- Strength recommendation, script.js lines 127-131. -/
def strengthRec : Recommendation :=
  ⟨"strength",
   "Focus on progressive overload this week",
   "Increase weights by 5% or add 2 more reps"⟩

/-- Calorie-control recommendation, script.js lines 145-149. -/
def calorieControlRec : Recommendation :=
  ⟨"calorie_control",
   "You exceeded your calorie target yesterday. Lets focus on portion control today.",
   "Try using smaller plates and eating slowly"⟩

/-- Protein recommendation, script.js lines 155-159. -/
def proteinRec : Recommendation :=
  ⟨"protein",
   "Ensure adequate protein intake with plant-based sources",
   "Include lentils, quinoa, or Greek yogurt in your meals"⟩

/-- Sleep recommendation, script.js lines 169-173. -/
def sleepRec : Recommendation :=
  ⟨"sleep",
   "Quality sleep is crucial for recovery and weight management",
   "Aim for 7-9 hours of sleep tonight"⟩

/-- Hydration recommendation, script.js lines 176-180. -/
def hydrationRec : Recommendation :=
  ⟨"hydration",
   "Stay hydrated to support your metabolism and workout performance",
   "Drink at least 8 glasses of water today"⟩

/-- `AIService.generateWorkoutRecommendations`, script.js lines 100-135.
The `fitnessGoals.includes` call on line 118 throws when `fitnessGoals`
is absent; the motivation rule fires on `workoutCompleted === false`. -/
def generateWorkoutRecommendations (p : Profile) (currentProgress : List ProgressEntry) :
    Except String (List Recommendation) :=
  let progressRecs : List Recommendation :=
    match currentProgress with
    | recent :: _ =>
        if recent.workoutCompleted = some false then [motivationRec] else []
    | [] => []
  match p.fitnessGoals with
  | none => .error fitnessGoalsTypeError
  | some fitnessGoals =>
      .ok (progressRecs
        ++ (if fitnessGoals.contains "weight_loss" then [cardioRec] else [])
        ++ (if fitnessGoals.contains "muscle_gain" then [strengthRec] else []))

/-- `AIService.generateNutritionRecommendations`, script.js lines 137-163.
Reading `preferences.dietaryRestrictions` throws when `preferences` is
absent; an absent `dietaryRestrictions` is guarded by `&&`. -/
def generateNutritionRecommendations (p : Profile) (currentProgress : List ProgressEntry) :
    Except String (List Recommendation) :=
  let progressRecs : List Recommendation :=
    match currentProgress with
    | recent :: _ =>
        if recent.caloriesConsumed > recent.targetCalories * 1.2
        then [calorieControlRec] else []
    | [] => []
  match p.preferences with
  | none => .error preferencesTypeError
  | some prefs =>
      let dietRecs : List Recommendation :=
        match prefs.dietaryRestrictions with
        | some dr => if dr.contains "vegetarian" then [proteinRec] else []
        | none => []
      .ok (progressRecs ++ dietRecs)

/-- `AIService.generateLifestyleRecommendations`, script.js lines 165-183:
two fixed pushes, input ignored. -/
def generateLifestyleRecommendations (_p : Profile) (_currentProgress : List ProgressEntry) :
    List Recommendation :=
  [sleepRec, hydrationRec]

/-- The three recommendation lists assembled on script.js lines 87-91. -/
structure RecommendationSet where
  workout : List Recommendation
  nutrition : List Recommendation
  lifestyle : List Recommendation
deriving Repr, DecidableEq

/-- The error rethrown by the catch block, script.js line 96. -/
def aiServiceError : String := "Failed to generate AI recommendations"

/-- `AIService.getPersonalizedRecommendations`, script.js lines 82-98:
assembles the three sub-generators; any thrown error is caught and
replaced by the generic failure error. -/
def getPersonalizedRecommendations (p : Profile) (currentProgress : List ProgressEntry) :
    Except String RecommendationSet :=
  match generateWorkoutRecommendations p currentProgress,
        generateNutritionRecommendations p currentProgress with
  | .ok w, .ok n => .ok ⟨w, n, generateLifestyleRecommendations p currentProgress⟩
  | _, _ => .error aiServiceError

/-- A meal catalog entry, script.js lines 189-251. -/
structure Meal where
  name : String
  calories : ℤ
  protein : ℤ
  carbs : ℤ
  fats : ℤ
  ingredients : List String
  prepTime : ℤ
  vegan : Bool
  glutenFree : Bool
deriving Repr, DecidableEq

/-- Breakfast catalog, script.js lines 190-213. -/
def breakfastMeals : List Meal :=
  [⟨"Overnight Oats with Berries", 350, 15, 55, 8,
    ["oats", "milk", "berries", "honey"], 5, false, true⟩,
   ⟨"Avocado Toast", 320, 12, 35, 18,
    ["whole grain bread", "avocado", "eggs", "tomato"], 10, false, false⟩]

/-- Lunch catalog, script.js lines 214-237. -/
def lunchMeals : List Meal :=
  [⟨"Grilled Chicken Salad", 450, 35, 25, 22,
    ["chicken breast", "mixed greens", "olive oil", "vegetables"], 15, false, true⟩,
   ⟨"Quinoa Buddha Bowl", 420, 18, 52, 16,
    ["quinoa", "chickpeas", "vegetables", "tahini"], 20, true, true⟩]

/-- Dinner catalog, script.js lines 238-250. -/
def dinnerMeals : List Meal :=
  [⟨"Baked Salmon with Vegetables", 480, 40, 20, 25,
    ["salmon", "broccoli", "sweet potato", "olive oil"], 25, false, true⟩]

/-- Per-slot filtered meal plan, script.js lines 254-263. -/
structure MealPlan where
  breakfast : List Meal
  lunch : List Meal
  dinner : List Meal
deriving Repr, DecidableEq

/-- The `preferences` argument of generateMealPlan, script.js line 186:
both fields default to the empty list when absent. -/
structure MealPreferences where
  dietaryRestrictions : List String
  cuisinePreferences : List String
deriving Repr, DecidableEq

/-- The filter predicate of script.js lines 256-260. -/
def mealAllowed (dietaryRestrictions : List String) (meal : Meal) : Bool :=
  if dietaryRestrictions.contains "vegan" && !meal.vegan then false
  else if dietaryRestrictions.contains "gluten_free" && !meal.glutenFree then false
  else true

/-- `AIService.generateMealPlan`, script.js lines 185-264: computes
nutrition needs first (line 187, which throws for an absent
`fitnessGoals`), then filters each catalog slot by dietary tags. -/
def generateMealPlan (p : Profile) (preferences : MealPreferences) :
    Except String MealPlan :=
  match calculateNutritionNeeds p with
  | .error e => .error e
  | .ok _ =>
      let dr := preferences.dietaryRestrictions
      .ok ⟨breakfastMeals.filter (mealAllowed dr),
           lunchMeals.filter (mealAllowed dr),
           dinnerMeals.filter (mealAllowed dr)⟩

/-! ### Specification-side reference definitions (spec.md §4.1, §4.3)

These are written from the specification's words, to be compared with the
definitions embedded from the source. -/

/-- Spec §4.1 step 1: gender-specific Harris-Benedict BMR; the female
formula is used for female and other. -/
def specBMR (gender : String) (weight height age : ℚ) : ℚ :=
  if gender = "male" then
    88.362 + 13.397 * weight + 4.799 * height - 5.677 * age
  else
    447.593 + 9.247 * weight + 3.098 * height - 4.330 * age

/-- Spec §4.1 step 2: the activity factor table, with 1.2 for a missing
or invalid activity level. -/
def specActivityFactor (activityLevel : Option String) : ℚ :=
  if activityLevel = some "sedentary" then 1.2
  else if activityLevel = some "lightly_active" then 1.375
  else if activityLevel = some "moderately_active" then 1.55
  else if activityLevel = some "very_active" then 1.725
  else 1.2

/-- Spec §4.1 step 3: goal adjustment in priority order, weight_loss
before muscle_gain. -/
def specTargetCalories (gender : String) (weight height age : ℚ)
    (activityLevel : Option String) (goals : List String) : ℚ :=
  let tdee := specBMR gender weight height age * specActivityFactor activityLevel
  if goals.contains "weight_loss" then tdee - 500
  else if goals.contains "muscle_gain" then tdee + 300
  else tdee

/-- Spec §4.1 steps 4-5: calories and the 25/45/30 macro split, each
rounded to the nearest integer independently. -/
def specNutritionTargets (gender : String) (weight height age : ℚ)
    (activityLevel : Option String) (goals : List String) : NutritionNeeds :=
  let target := specTargetCalories gender weight height age activityLevel goals
  ⟨round target,
   ⟨round (target * 0.25 / 4), round (target * 0.45 / 4), round (target * 0.30 / 9)⟩⟩

/-- Spec §4.3: keep a meal iff NOT (vegan requested AND meal not vegan)
AND NOT (gluten_free requested AND meal not gluten free). -/
def specKeep (dr : List String) (m : Meal) : Bool :=
  !(dr.contains "vegan" && !m.vegan) && !(dr.contains "gluten_free" && !m.glutenFree)

/-! ### Helper lemmas -/

theorem jsRound_eq_round (q : ℚ) : jsRound q = round q := by
  rw [round_eq]; rfl

theorem jsRound_le (q : ℚ) : (jsRound q : ℚ) ≤ q + 1 / 2 :=
  Int.floor_le _

theorem lt_jsRound (q : ℚ) : q - 1 / 2 < (jsRound q : ℚ) := by
  have h := Int.lt_floor_add_one (q + 1 / 2)
  unfold jsRound
  push_cast at h ⊢
  linarith

theorem jsRound_pos (q : ℚ) (h : 1 / 2 ≤ q) : 0 < jsRound q := by
  unfold jsRound
  have h1 : (1 : ℤ) ≤ ⌊q + 1 / 2⌋ := Int.le_floor.mpr (by push_cast; linarith)
  omega

theorem jsRound_nonneg (q : ℚ) (h : 0 ≤ q) : 0 ≤ jsRound q := by
  unfold jsRound
  exact Int.le_floor.mpr (by push_cast; linarith)

theorem specActivityFactor_eq (al : Option String) :
    specActivityFactor al = activityFactor al := by
  cases al with
  | none => rfl
  | some s => simp only [specActivityFactor, activityFactor, Option.some.injEq]

theorem activityFactor_lb (al : Option String) : (1.2 : ℚ) ≤ activityFactor al := by
  cases al with
  | none => norm_num [activityFactor]
  | some s =>
      simp only [activityFactor]
      split_ifs <;> norm_num

theorem bmrOf_lb (p : Profile) (ha : p.age ≤ 120) (hw : 30 ≤ p.weight)
    (hh : 100 ≤ p.height) : (288.932 : ℚ) ≤ bmrOf p := by
  unfold bmrOf
  split_ifs <;> linarith

theorem tdeeOf_lb (p : Profile) (ha : p.age ≤ 120) (hw : 30 ≤ p.weight)
    (hh : 100 ≤ p.height) : (346.7184 : ℚ) ≤ tdeeOf p := by
  have h1 := bmrOf_lb p ha hw hh
  have h2 := activityFactor_lb p.activityLevel
  unfold tdeeOf
  nlinarith [mul_le_mul h1 h2 (by norm_num) (by linarith)]

theorem targetCaloriesOf_lb (p : Profile) (gs : List String)
    (hwl : gs.contains "weight_loss" = false) (ha : p.age ≤ 120)
    (hw : 30 ≤ p.weight) (hh : 100 ≤ p.height) :
    (346.7184 : ℚ) ≤ targetCaloriesOf p gs := by
  have h := tdeeOf_lb p ha hw hh
  unfold targetCaloriesOf
  rw [hwl]
  simp only [Bool.false_eq_true, if_false]
  split_ifs <;> linarith

theorem kcal_sum_bound (tc : ℚ) :
    |4 * jsRound (tc * 0.25 / 4) + 4 * jsRound (tc * 0.45 / 4) +
      9 * jsRound (tc * 0.30 / 9) - jsRound tc| ≤ 8 := by
  have h1 := jsRound_le (tc * 0.25 / 4)
  have h2 := lt_jsRound (tc * 0.25 / 4)
  have h3 := jsRound_le (tc * 0.45 / 4)
  have h4 := lt_jsRound (tc * 0.45 / 4)
  have h5 := jsRound_le (tc * 0.30 / 9)
  have h6 := lt_jsRound (tc * 0.30 / 9)
  have h7 := jsRound_le tc
  have h8 := lt_jsRound tc
  have hub : 4 * jsRound (tc * 0.25 / 4) + 4 * jsRound (tc * 0.45 / 4) +
      9 * jsRound (tc * 0.30 / 9) - jsRound tc < 9 := by
    have hq : (4 * (jsRound (tc * 0.25 / 4) : ℚ) + 4 * (jsRound (tc * 0.45 / 4) : ℚ) +
        9 * (jsRound (tc * 0.30 / 9) : ℚ) - (jsRound tc : ℚ)) < 9 := by linarith
    exact_mod_cast hq
  have hlb : (-9 : ℤ) < 4 * jsRound (tc * 0.25 / 4) + 4 * jsRound (tc * 0.45 / 4) +
      9 * jsRound (tc * 0.30 / 9) - jsRound tc := by
    have hq : (-9 : ℚ) < 4 * (jsRound (tc * 0.25 / 4) : ℚ) + 4 * (jsRound (tc * 0.45 / 4) : ℚ) +
        9 * (jsRound (tc * 0.30 / 9) : ℚ) - (jsRound tc : ℚ) := by linarith
    exact_mod_cast hq
  rw [abs_le]
  omega

theorem mealAllowed_eq_specKeep (dr : List String) (m : Meal) :
    mealAllowed dr m = specKeep dr m := by
  unfold mealAllowed specKeep
  cases h1 : dr.contains "vegan" <;> cases h2 : dr.contains "gluten_free" <;>
    cases h3 : m.vegan <;> cases h4 : m.glutenFree <;> simp_all

theorem mealAllowed_vegan (dr : List String) (m : Meal)
    (hv : dr.contains "vegan" = true) (h : mealAllowed dr m = true) :
    m.vegan = true := by
  unfold mealAllowed at h
  rw [hv] at h
  cases h3 : m.vegan
  · rw [h3] at h; simp at h
  · rfl

theorem calculateNutritionNeeds_eq (p : Profile) (gs : List String)
    (hg : p.fitnessGoals = some gs) :
    calculateNutritionNeeds p = .ok
      ⟨jsRound (targetCaloriesOf p gs),
       ⟨jsRound (targetCaloriesOf p gs * 0.25 / 4),
        jsRound (targetCaloriesOf p gs * 0.45 / 4),
        jsRound (targetCaloriesOf p gs * 0.30 / 9)⟩⟩ := by
  obtain ⟨a, w, h, g, al, fg, pr⟩ := p
  replace hg : fg = some gs := hg
  subst hg
  rfl

theorem calculateNutritionNeeds_none (p : Profile) (hg : p.fitnessGoals = none) :
    calculateNutritionNeeds p = .error fitnessGoalsTypeError := by
  obtain ⟨a, w, h, g, al, fg, pr⟩ := p
  replace hg : fg = none := hg
  subst hg
  rfl

theorem generateMealPlan_ok (p : Profile) (gs : List String) (prefs : MealPreferences)
    (hg : p.fitnessGoals = some gs) :
    generateMealPlan p prefs = .ok
      ⟨breakfastMeals.filter (mealAllowed prefs.dietaryRestrictions),
       lunchMeals.filter (mealAllowed prefs.dietaryRestrictions),
       dinnerMeals.filter (mealAllowed prefs.dietaryRestrictions)⟩ := by
  obtain ⟨a, w, h, g, al, fg, pr⟩ := p
  replace hg : fg = some gs := hg
  subst hg
  rfl

theorem codeTarget_eq_spec (p : Profile) (gs : List String) :
    targetCaloriesOf p gs =
      specTargetCalories p.gender p.weight p.height p.age p.activityLevel gs := by
  unfold targetCaloriesOf specTargetCalories tdeeOf bmrOf specBMR
  rw [specActivityFactor_eq]

/-! ### Claims -/

/-- C1: for every profile carrying a fitnessGoals collection,
`calculateNutritionNeeds` follows the spec's reference algorithm: the
gender-specific Harris-Benedict BMR (male formula only for gender male),
TDEE as BMR times the activity factor (1.2 fallback for a missing or
unknown level), the weight_loss-before-muscle_gain calorie adjustment,
and the independently rounded 25/45/30 macro split over 4/4/9 kcal per
gram. -/
theorem C1_calculateNutritionNeeds_follows_reference (p : Profile) (gs : List String)
    (hg : p.fitnessGoals = some gs) :
    calculateNutritionNeeds p =
      .ok (specNutritionTargets p.gender p.weight p.height p.age p.activityLevel gs) := by
  rw [calculateNutritionNeeds_eq p gs hg, codeTarget_eq_spec]
  unfold specNutritionTargets
  simp only [jsRound_eq_round]

/-- C1 witness: the reference profile from the spec's first example. -/
theorem C1_witness :
    calculateNutritionNeeds
        ⟨28, 75, 175, "male", some "moderately_active",
         some ["weight_loss", "muscle_gain"], none⟩ =
      .ok (specNutritionTargets "male" 75 175 28 (some "moderately_active")
        ["weight_loss", "muscle_gain"]) :=
  C1_calculateNutritionNeeds_follows_reference
    ⟨28, 75, 175, "male", some "moderately_active",
     some ["weight_loss", "muscle_gain"], none⟩
    ["weight_loss", "muscle_gain"] rfl

/-- C2 counterexample: a documented-range profile (male, age 120, weight
30 kg, height 100 cm, sedentary, goal weight_loss) gets dailyCalories
-153, which is not positive. -/
theorem C2_counterexample :
    calculateNutritionNeeds
        ⟨120, 30, 100, "male", some "sedentary", some ["weight_loss"], none⟩ =
      .ok ⟨-153, ⟨-10, -17, -5⟩⟩ ∧ ¬ (0 < (-153 : ℤ)) := by
  refine ⟨?_, by norm_num⟩
  norm_num [calculateNutritionNeeds, targetCaloriesOf, tdeeOf, bmrOf, activityFactor, jsRound]

/-- C2 (amended): for every profile whose numeric fields lie in the
documented ranges and whose fitnessGoals do not contain weight_loss, the
dailyCalories value returned by calculateNutritionNeeds is a positive
integer; with weight_loss the -500 adjustment can make it negative. -/
theorem C2_dailyCalories_positive (p : Profile) (gs : List String) (t : NutritionNeeds)
    (hg : p.fitnessGoals = some gs) (hwl : gs.contains "weight_loss" = false)
    (ha1 : 13 ≤ p.age) (ha2 : p.age ≤ 120) (hw1 : 30 ≤ p.weight) (hw2 : p.weight ≤ 300)
    (hh1 : 100 ≤ p.height) (hh2 : p.height ≤ 250)
    (hok : calculateNutritionNeeds p = .ok t) :
    0 < t.dailyCalories := by
  have hlb := targetCaloriesOf_lb p gs hwl ha2 hw1 hh1
  rw [calculateNutritionNeeds_eq p gs hg] at hok
  injection hok with hinj
  subst hinj
  exact jsRound_pos _ (by linarith)

/-- C2 witness: a moderately active male profile with goal muscle_gain. -/
theorem C2_witness : 0 < ((⟨3050, ⟨191, 343, 102⟩⟩ : NutritionNeeds)).dailyCalories :=
  C2_dailyCalories_positive
    ⟨28, 75, 175, "male", some "moderately_active", some ["muscle_gain"], none⟩
    ["muscle_gain"] ⟨3050, ⟨191, 343, 102⟩⟩ rfl (by decide) (by norm_num) (by norm_num)
    (by norm_num) (by norm_num) (by norm_num) (by norm_num)
    (by simp [calculateNutritionNeeds, targetCaloriesOf, tdeeOf, bmrOf,
        activityFactor, jsRound]
        norm_num)

/-- C3 counterexample: the in-range profile (male, age 120, weight
30.95 kg, height 100 cm, sedentary, weight_loss) yields macros
(-9, -16, -5): protein is negative, and the kcal sum deviates from
dailyCalories by 7, beyond the claimed 3. -/
theorem C3_counterexample :
    calculateNutritionNeeds
        ⟨120, 30.95, 100, "male", some "sedentary", some ["weight_loss"], none⟩ =
      .ok ⟨-138, ⟨-9, -16, -5⟩⟩ ∧
    ¬ (0 ≤ (-9 : ℤ)) ∧ ¬ (|4 * (-9 : ℤ) + 4 * (-16) + 9 * (-5) - (-138)| ≤ 3) := by
  refine ⟨?_, by norm_num, by norm_num⟩
  norm_num [calculateNutritionNeeds, targetCaloriesOf, tdeeOf, bmrOf, activityFactor, jsRound]

/-- C3 (amended): macro grams are integers whose kcal sum 4*protein +
4*carbs + 9*fats always differs from dailyCalories by at most 8, and they
are non-negative for every documented-range profile whose fitnessGoals do
not contain weight_loss. -/
theorem C3_macro_bounds (p : Profile) (gs : List String) (t : NutritionNeeds)
    (hg : p.fitnessGoals = some gs) (hok : calculateNutritionNeeds p = .ok t) :
    |4 * t.macros.protein + 4 * t.macros.carbs + 9 * t.macros.fats - t.dailyCalories| ≤ 8 ∧
    (gs.contains "weight_loss" = false → 13 ≤ p.age → p.age ≤ 120 → 30 ≤ p.weight →
      p.weight ≤ 300 → 100 ≤ p.height → p.height ≤ 250 →
      0 ≤ t.macros.protein ∧ 0 ≤ t.macros.carbs ∧ 0 ≤ t.macros.fats) := by
  rw [calculateNutritionNeeds_eq p gs hg] at hok
  injection hok with hinj
  subst hinj
  constructor
  · exact kcal_sum_bound (targetCaloriesOf p gs)
  · intro hwl _ ha2 hw1 _ hh1 _
    have hlb := targetCaloriesOf_lb p gs hwl ha2 hw1 hh1
    exact ⟨jsRound_nonneg _ (by linarith), jsRound_nonneg _ (by linarith),
           jsRound_nonneg _ (by linarith)⟩

/-- C3 witness: the muscle_gain profile, whose kcal sum deviates by 4. -/
theorem C3_witness :
    |4 * (191 : ℤ) + 4 * 343 + 9 * 102 - 3050| ≤ 8 ∧
    (0 ≤ (191 : ℤ) ∧ 0 ≤ (343 : ℤ) ∧ 0 ≤ (102 : ℤ)) := by
  have h := C3_macro_bounds
    ⟨28, 75, 175, "male", some "moderately_active", some ["muscle_gain"], none⟩
    ["muscle_gain"] ⟨3050, ⟨191, 343, 102⟩⟩ rfl
    (by simp [calculateNutritionNeeds, targetCaloriesOf, tdeeOf, bmrOf,
        activityFactor, jsRound]
        norm_num)
  exact ⟨h.1, h.2 (by decide) (by norm_num) (by norm_num) (by norm_num) (by norm_num)
    (by norm_num) (by norm_num)⟩

/-- C4 counterexample: a profile with no fitnessGoals collection makes
getPersonalizedRecommendations raise the generic failure error instead of
treating the missing collection as empty. -/
theorem C4_counterexample :
    getPersonalizedRecommendations
        ⟨28, 75, 175, "male", some "sedentary", none, some ⟨some []⟩⟩ [] =
      .error aiServiceError := rfl

/-- C4 (amended): an absent preferences.dietaryRestrictions (with
preferences present) is treated as empty, and the whole call still
succeeds; but an absent fitnessGoals collection, or an absent preferences
object, makes the membership test fail and getPersonalizedRecommendations
returns the generic error. -/
theorem C4_missing_collections (a w h : ℚ) (g : String) (al : Option String)
    (gs : List String) (cp : List ProgressEntry) :
    generateNutritionRecommendations ⟨a, w, h, g, al, some gs, some ⟨none⟩⟩ cp =
        generateNutritionRecommendations ⟨a, w, h, g, al, some gs, some ⟨some []⟩⟩ cp ∧
    (∃ r, getPersonalizedRecommendations ⟨a, w, h, g, al, some gs, some ⟨none⟩⟩ cp = .ok r) ∧
    getPersonalizedRecommendations ⟨a, w, h, g, al, none, some ⟨some []⟩⟩ cp =
        .error aiServiceError ∧
    getPersonalizedRecommendations ⟨a, w, h, g, al, some gs, none⟩ cp =
        .error aiServiceError :=
  ⟨rfl, ⟨_, rfl⟩, rfl, rfl⟩

/-- C5: for every profile with a fitnessGoals collection and any progress
list, generateWorkoutRecommendations returns, in order: motivation iff
the first progress entry has workoutCompleted false, then cardio iff
weight_loss is a goal, then strength iff muscle_gain is a goal, the three
rules firing independently. -/
theorem C5_workout_rules (p : Profile) (gs : List String) (cp : List ProgressEntry)
    (hg : p.fitnessGoals = some gs) :
    generateWorkoutRecommendations p cp = .ok (
      (match cp.head? with
       | some r => if r.workoutCompleted = some false then [motivationRec] else []
       | none => [])
      ++ (if gs.contains "weight_loss" then [cardioRec] else [])
      ++ (if gs.contains "muscle_gain" then [strengthRec] else [])) := by
  obtain ⟨a, w, h, g, al, fg, pr⟩ := p
  replace hg : fg = some gs := hg
  subst hg
  cases cp <;> rfl

/-- C5 witness: missed workout, no goals: motivation only. -/
theorem C5_witness :
    generateWorkoutRecommendations ⟨28, 75, 175, "male", none, some [], none⟩
      [⟨some false, 0, 0⟩] = .ok [motivationRec] := by
  have h := C5_workout_rules ⟨28, 75, 175, "male", none, some [], none⟩ []
    [⟨some false, 0, 0⟩] rfl
  exact h

/-- C6: for every profile with a preferences object carrying a
dietaryRestrictions collection, generateNutritionRecommendations emits
calorie_control iff the first progress entry consumed strictly more than
1.2 times its target, and protein iff vegetarian is restricted, the two
checks independent, calorie_control first. -/
theorem C6_nutrition_rules (p : Profile) (pr : Preferences) (dr : List String)
    (cp : List ProgressEntry) (hp : p.preferences = some pr)
    (hdr : pr.dietaryRestrictions = some dr) :
    generateNutritionRecommendations p cp = .ok (
      (match cp.head? with
       | some r => if r.caloriesConsumed > r.targetCalories * 1.2
                   then [calorieControlRec] else []
       | none => [])
      ++ (if dr.contains "vegetarian" then [proteinRec] else [])) := by
  obtain ⟨a, w, h, g, al, fg, pp⟩ := p
  replace hp : pp = some pr := hp
  subst hp
  obtain ⟨dropt⟩ := pr
  replace hdr : dropt = some dr := hdr
  subst hdr
  cases cp <;> rfl

/-- C6 witness: the spec's third example, 2600 consumed against target
2000: calorie_control only. -/
theorem C6_witness :
    generateNutritionRecommendations ⟨28, 75, 175, "female", none, some [], some ⟨some []⟩⟩
      [⟨none, 2600, 2000⟩] = .ok [calorieControlRec] := by
  rw [C6_nutrition_rules ⟨28, 75, 175, "female", none, some [], some ⟨some []⟩⟩
    ⟨some []⟩ [] [⟨none, 2600, 2000⟩] rfl rfl]
  norm_num [List.head?]

/-- C7: generateLifestyleRecommendations returns the same fixed two-entry
sequence, sleep then hydration, for every input. -/
theorem C7_lifestyle_fixed (p : Profile) (cp : List ProgressEntry) :
    generateLifestyleRecommendations p cp = [sleepRec, hydrationRec] ∧
    (generateLifestyleRecommendations p cp).length = 2 :=
  ⟨rfl, rfl⟩

/-- C8: for every dietaryRestrictions set (and a profile carrying
fitnessGoals so that the call succeeds), generateMealPlan maps each slot
to exactly the catalog meals passing the spec's keep-predicate in catalog
order; with no restrictions each slot is the full catalog, and with vegan
requested no returned meal has vegan false. -/
theorem C8_mealplan_filter (p : Profile) (gs : List String) (prefs : MealPreferences)
    (hg : p.fitnessGoals = some gs) :
    generateMealPlan p prefs = .ok
      ⟨breakfastMeals.filter (specKeep prefs.dietaryRestrictions),
       lunchMeals.filter (specKeep prefs.dietaryRestrictions),
       dinnerMeals.filter (specKeep prefs.dietaryRestrictions)⟩ ∧
    (prefs.dietaryRestrictions = [] →
      generateMealPlan p prefs = .ok ⟨breakfastMeals, lunchMeals, dinnerMeals⟩) ∧
    (prefs.dietaryRestrictions.contains "vegan" = true →
      ∀ plan, generateMealPlan p prefs = .ok plan →
        (∀ m ∈ plan.breakfast, m.vegan = true) ∧ (∀ m ∈ plan.lunch, m.vegan = true) ∧
        (∀ m ∈ plan.dinner, m.vegan = true)) := by
  have hfun : mealAllowed prefs.dietaryRestrictions = specKeep prefs.dietaryRestrictions :=
    funext fun m => mealAllowed_eq_specKeep _ m
  have hmain := generateMealPlan_ok p gs prefs hg
  refine ⟨?_, ?_, ?_⟩
  · rw [hmain, hfun]
  · intro h0
    rw [hmain, h0]
    rfl
  · intro hv plan hok2
    rw [hmain] at hok2
    injection hok2 with hinj
    subst hinj
    refine ⟨?_, ?_, ?_⟩ <;> intro m hm <;> rw [List.mem_filter] at hm <;>
      exact mealAllowed_vegan _ m hv hm.2

/-- C8 witness: vegan restriction keeps only the Quinoa Buddha Bowl. -/
theorem C8_witness :
    generateMealPlan ⟨28, 75, 175, "male", some "moderately_active", some ["muscle_gain"], none⟩
      ⟨["vegan"], []⟩ =
      .ok ⟨[], [⟨"Quinoa Buddha Bowl", 420, 18, 52, 16,
        ["quinoa", "chickpeas", "vegetables", "tahini"], 20, true, true⟩], []⟩ := by
  rw [(C8_mealplan_filter
    ⟨28, 75, 175, "male", some "moderately_active", some ["muscle_gain"], none⟩
    ["muscle_gain"] ⟨["vegan"], []⟩ rfl).1]
  rfl

/-- C9: cuisinePreferences is accepted but never consulted: two
preferences values differing only there give identical meal plans. -/
theorem C9_cuisine_noop (p : Profile) (dr c₁ c₂ : List String) :
    generateMealPlan p ⟨dr, c₁⟩ = generateMealPlan p ⟨dr, c₂⟩ := rfl

/-- C10: generateMealPlan computes nutrition needs before filtering, so a
profile without a fitnessGoals collection makes the whole call fail, even
though the dietary filter itself never consults the computed targets
(successful plans are identical across profiles). -/
theorem C10_mealplan_requires_goals (p : Profile) (prefs : MealPreferences)
    (hg : p.fitnessGoals = none) :
    generateMealPlan p prefs = .error fitnessGoalsTypeError ∧
    (∀ (q q' : Profile) (gs gs' : List String), q.fitnessGoals = some gs →
      q'.fitnessGoals = some gs' → generateMealPlan q prefs = generateMealPlan q' prefs) := by
  constructor
  · unfold generateMealPlan
    rw [calculateNutritionNeeds_none p hg]
  · intro q q' gs gs' hq hq'
    rw [generateMealPlan_ok q gs prefs hq, generateMealPlan_ok q' gs' prefs hq']

/-- C10 witness: a goal-less profile cannot obtain a meal plan. -/
theorem C10_witness :
    generateMealPlan ⟨28, 75, 175, "male", some "sedentary", none, none⟩ ⟨[], []⟩ =
      .error fitnessGoalsTypeError :=
  (C10_mealplan_requires_goals ⟨28, 75, 175, "male", some "sedentary", none, none⟩
    ⟨[], []⟩ rfl).1

end AIHealthCoach
